import Mathlib

/-!
Verification development for the `underworld.mesh._mesh` module (FeMesh,
MeshGenerator, CartesianMeshGenerator, FeMesh_Cartesian, FeMesh_IndexSet and
the special-set registry).  Python values that can carry wrong dynamic types
are embedded as small sum types; each constructor validation routine is
embedded as an `Except`-valued function performing the same checks in the
same order as the Python source.
-/

namespace Underworld

/-- Errors raised by the binding layer.  Mirrors the Python exception type
(TypeError / ValueError / IndexError) together with the message of the raise
site (format slots elided). -/
inductive UwError where
  | typeError (msg : String)
  | valueError (msg : String)
  | indexError (msg : String)
deriving DecidableEq, Repr

/-- A Python value appearing in an `elementRes` list: either an int, or an
object of some other type (`isinstance(item, int)` fails). -/
inductive PyRes where
  | int (n : Int)
  | other
deriving DecidableEq, Repr

/-- A Python value appearing in a `minCoord`/`maxCoord` list: either a
numeric value (int/float, embedded as a rational), or a non-numeric object. -/
inductive PyCoord where
  | num (q : ℚ)
  | other
deriving DecidableEq, Repr

/-- A Python value appearing in a `periodic` list: either a bool, or a
non-bool object. -/
inductive PyBool where
  | bool (b : Bool)
  | other
deriving DecidableEq, Repr

/-- A Python argument expected to be a list or tuple: either a sequence of
values, or an object of some other type. -/
inductive PySeq (α : Type) where
  | seq (xs : List α)
  | nonSeq
deriving DecidableEq, Repr

/-- Numeric value of a coordinate entry (entries are checked to be numeric
before this is ever used). -/
def PyCoord.val : PyCoord → ℚ
  | .num q => q
  | .other => 0

/-- Whether an `elementRes` entry fails the check
`not isinstance(item,(int)) or (item < 1)` of the source. -/
def PyRes.isBad : PyRes → Bool
  | .int n => n < 1
  | .other => true

/-- The validated state built by `CartesianMeshGenerator.__init__`:
the fields assigned by a successful construction. -/
structure CartGenState where
  elementRes : List PyRes
  minCoord : List PyCoord
  maxCoord : List PyCoord
  dim : Nat
  periodic : List PyBool
deriving DecidableEq, Repr

/-- Embedding of `CartesianMeshGenerator.__init__` (src/underworld/mesh/_mesh.py,
lines 238-306): argument validation performed in source order.  Note that the
source line 297 reads `if len(periodic) != len(periodic):`, comparing the
length of `periodic` with itself; the embedding reproduces that comparison
verbatim. -/
def cartesianMeshGeneratorInit (elementRes : PySeq PyRes) (minCoord : PySeq PyCoord)
    (maxCoord : PySeq PyCoord) (periodic : PySeq PyBool) : Except UwError CartGenState := do
  let eres ← match elementRes with
    | .seq xs => pure xs
    | .nonSeq => throw (.typeError "elementRes object passed in must be of type list or tuple")
  if eres.any PyRes.isBad then
    throw (.typeError "elementRes list must only contain positive integers.")
  if ¬ (eres.length = 2 ∨ eres.length = 3) then
    throw (.valueError "For elementRes, you must provide a tuple of length 2 or 3 (for respectively a 2d or 3d mesh).")
  let minc ← match minCoord with
    | .seq xs => pure xs
    | .nonSeq => throw (.typeError "minCoord object passed in must be of type list or tuple")
  if minc.any (fun item => item = PyCoord.other) then
    throw (.typeError "minCoord object passed in must only contain objects of type int or float")
  if minc.length ≠ eres.length then
    throw (.valueError "minCoord tuple length must be the same as that of elementRes.")
  let maxc ← match maxCoord with
    | .seq xs => pure xs
    | .nonSeq => throw (.typeError "maxCoord object passed in must be of type list or tuple")
  if maxc.any (fun item => item = PyCoord.other) then
    throw (.typeError "maxCoord object passed in must only contain objects of type int or float")
  if maxc.length ≠ eres.length then
    throw (.valueError "maxCoord tuple length must be the same as that of elementRes.")
  let dim := eres.length
  let per ← match periodic with
    | .seq xs => pure xs
    | .nonSeq => throw (.typeError "periodic object passed in must be of type list or tuple in CartesianMeshGenerator")
  if per.any (fun item => match item with | .bool _ => false | .other => true) then
    throw (.typeError "periodic list must only contain booleans.")
  if per.length ≠ per.length then
    throw (.valueError "periodic tuple length must be the same as that of elementRes.")
  if (List.range dim).any
      (fun ii => (maxc.getD ii PyCoord.other).val ≤ (minc.getD ii PyCoord.other).val) then
    throw (.valueError "minCoord entry must be less than maxCoord entry")
  pure (CartGenState.mk eres minc maxc dim per)

/-- Whether an `Except` computation succeeded. -/
def exceptOk {ε α : Type} : Except ε α → Bool
  | .ok _ => true
  | .error _ => false

/-! ### Python string primitives used by the element-type machinery -/

/-- ASCII uppercase of one character (Python `str.upper` restricted to the
ASCII element-type strings used here). -/
def charUpper (c : Char) : Char :=
  if 'a' ≤ c ∧ c ≤ 'z' then Char.ofNat (c.toNat - 32) else c

/-- Python `s.upper()` on the character list of `s`. -/
def upperChars (s : List Char) : List Char := s.map charUpper

/-- Python substring test `pat in s`. -/
def substrIn (pat : List Char) : List Char → Bool
  | [] => pat.isEmpty
  | c :: rest => pat.isPrefixOf (c :: rest) || substrIn pat rest

/-- Worker for `replaceAll`; the fuel only bounds recursion depth and never
runs out when it starts at the length of the subject string. -/
def replaceAllFuel (pat : List Char) : Nat → List Char → List Char
  | _, [] => []
  | 0, s => s
  | fuel + 1, c :: rest =>
    if pat ≠ [] ∧ pat.isPrefixOf (c :: rest) then
      replaceAllFuel pat fuel ((c :: rest).drop pat.length)
    else
      c :: replaceAllFuel pat fuel rest

/-- Python `s.replace(pat, blank)`: remove every non-overlapping occurrence
of `pat` from `s`, scanning left to right. -/
def replaceAll (pat s : List Char) : List Char := replaceAllFuel pat s.length s

/-! ### FeMesh: element types, generator property -/

/-- `FeMesh._supportedElementTypes` (line 41 of the source). -/
def supportedElementTypes : List (List Char) :=
  ["Q2".data, "Q1".data, "DQ1".data, "DPC1".data, "DQ0".data]

/-- A Python object as far as the generator property is concerned: an
identity, and whether `isinstance(obj, MeshGenerator)` holds. -/
structure PyObj where
  oid : Nat
  isMeshGenerator : Bool
deriving DecidableEq, Repr

/-- What `FeMesh._generator` holds after the setter ran: either a weak
reference (stored when the mesh is its own generator) or a plain strong
reference. -/
inductive GenStore where
  | weakref (m : PyObj)
  | strong (g : PyObj)
deriving DecidableEq, Repr

/-- Embedding of the `FeMesh.generator` setter (lines 99-115): reject
non-`MeshGenerator` arguments with a `TypeError`; store only a weak
reference when the generator is the mesh object itself (`self is
generator`), otherwise store the generator directly. -/
def generatorSetter (selfObj g : PyObj) : Except UwError GenStore :=
  if ¬ g.isMeshGenerator then
    .error (.typeError "generator object passed in must be of type MeshGenerator")
  else if selfObj = g then
    .ok (.weakref g)
  else
    .ok (.strong g)

/-- Embedding of the `FeMesh.generator` getter (lines 88-98): dereference
the weak reference when one is stored (the referent is the live mesh object
itself whenever the property is read). -/
def generatorGetter : GenStore → PyObj
  | .weakref m => m
  | .strong g => g

/-- A Python argument expected to be a string. -/
inductive PyStr where
  | str (s : List Char)
  | nonStr
deriving DecidableEq, Repr

/-- The fields a successful `FeMesh.__init__` assigns. -/
structure FeMeshState where
  elementType : List Char
  generator : GenStore
deriving DecidableEq, Repr

/-- Embedding of `FeMesh.__init__` (lines 43-79): element-type validation,
then generator selection (defaulting to the mesh itself when it is a
`MeshGenerator`), then the generator setter. -/
def femeshInit (elementType : PyStr) (generator : Option PyObj) (selfObj : PyObj) :
    Except UwError FeMeshState := do
  let s ← match elementType with
    | .str s => pure s
    | .nonStr => throw (.typeError "elementType object passed in must be of type str")
  if ¬ supportedElementTypes.contains (upperChars s) then
    throw (.valueError "elementType provided does not appear to be supported.")
  let gen ← match generator with
    | none =>
      if selfObj.isMeshGenerator then pure selfObj
      else throw (.valueError "No generator provided for mesh. You must provide a generator, or the mesh itself must be of the MeshGenerator class.")
    | some g => pure g
  let store ← generatorSetter selfObj gen
  pure (FeMeshState.mk (upperChars s) store)

/-! ### FeMesh_Cartesian: element-type string parsing and validation -/

/-- Loop body of `FeMesh_Cartesian._strtolist` (lines 459-478): iterate over
the supported element types, testing each against the (progressively
consumed) input string with the four-way `if/elif` cascade of the source. -/
def strtolistAux : List (List Char) → List Char → List (List Char) → List (List Char)
  | [], _, mlist => mlist
  | mesh :: types, et, mlist =>
    let mesh := upperChars mesh
    if substrIn mesh et && (mesh.length == et.length) then
      strtolistAux types (replaceAll mesh et) (mlist ++ [mesh])
    else if substrIn mesh (et.take 2) then
      strtolistAux types (replaceAll mesh et) (mlist ++ [mesh])
    else if substrIn ('D' :: mesh) et then
      strtolistAux types (replaceAll ('D' :: mesh) et) (mlist ++ ['D' :: mesh])
    else if substrIn mesh et then
      strtolistAux types (replaceAll mesh et) (mlist ++ [mesh])
    else
      strtolistAux types et mlist

/-- Embedding of `FeMesh_Cartesian._strtolist` (lines 459-478). -/
def strtolist (elementType : List Char) : List (List Char) :=
  strtolistAux supportedElementTypes (upperChars elementType) []

/-- Embedding of the element-type validation of `FeMesh_Cartesian.__new__`
(lines 491-507), applied to the already-listified element types: at most two
entries, every entry supported, the primary entry one of the first two
supported types, and (when present) the secondary entry one of the supported
types after the first.  An empty list makes `elementType[0]` raise an
`IndexError`, as in the source. -/
def femeshCartesianNewValidate (etList : List (List Char)) :
    Except UwError (List (List Char)) := do
  if etList.length > 2 then
    throw (.valueError "A maximum of two mesh types are currently supported.")
  if etList.any (fun t => ¬ supportedElementTypes.contains (upperChars t)) then
    throw (.valueError "elementType provided does not appear to be supported.")
  match etList with
  | [] => throw (.indexError "list index out of range")
  | t0 :: rest =>
    if ¬ (supportedElementTypes.take 2).contains (upperChars t0) then
      throw (.valueError "Primary elementType must be of type Q2 or Q1.")
    match rest with
    | [t1] =>
      if ¬ (supportedElementTypes.drop 1).contains (upperChars t1) then
        throw (.valueError "Secondary elementType must be one of the supported types after the first.")
      pure etList
    | _ => pure etList

/-- `FeMesh_Cartesian.__new__` on a string `elementType` argument: parse the
string with `_strtolist`, then validate the resulting token list. -/
def femeshCartesianNewStr (s : List Char) : Except UwError (List (List Char)) :=
  femeshCartesianNewValidate (strtolist s)

/-! ### FeMesh_IndexSet: compatibility checking and set algebra -/

/-- An `FeMesh_IndexSet`: the identity of the owning mesh
(`self.object._cself`), the topological level, and the held indices. -/
structure FeMesh_IndexSet where
  meshId : Nat
  topologicalIndex : Nat
  indices : List Nat
deriving DecidableEq, Repr

/-- Modelled from the spec: the parent class
`uw.container.ObjectifiedIndexSet._checkCompatWith` is not part of this
module; per the spec the only compatibility conditions on combining Index
Sets are identical topological level and identical owning mesh, both checked
by the subclass below, so the parent check imposes nothing further. -/
def parentCheckCompatWith (_self _other : FeMesh_IndexSet) : Except UwError Unit :=
  .ok ()

/-- Embedding of `FeMesh_IndexSet._checkCompatWith` (lines 662-673): parent
check, then the topological-index comparison, then the mesh-identity
comparison, each raising a `TypeError` on mismatch. -/
def checkCompatWith (self other : FeMesh_IndexSet) : Except UwError Unit := do
  parentCheckCompatWith self other
  if self.topologicalIndex ≠ other.topologicalIndex then
    throw (.typeError "This operation is illegal. The topologicalIndex for these sets do not correspond.")
  if self.meshId ≠ other.meshId then
    throw (.typeError "This operation is illegal. The meshes associated with these IndexSets appear to be different.")

/-- The three binary set-algebra operations on Index Sets. -/
inductive SetOp where
  | union
  | intersect
  | difference
deriving DecidableEq, Repr

/-- Modelled from the spec: the union/intersection/difference operations
live in the parent `IndexSet` class, not in this module; per the spec each
first runs the compatibility check and then combines memberships on the
common mesh and level. -/
def combine (op : SetOp) (a b : FeMesh_IndexSet) : Except UwError FeMesh_IndexSet := do
  checkCompatWith a b
  let ixs := match op with
    | .union => a.indices ++ b.indices.filter (fun x => ¬ a.indices.contains x)
    | .intersect => a.indices.filter (fun x => b.indices.contains x)
    | .difference => a.indices.filter (fun x => ¬ b.indices.contains x)
  pure (FeMesh_IndexSet.mk a.meshId a.topologicalIndex ixs)

/-! ### Global vertex counts for Cartesian meshes -/

/-- Modelled from the spec: `FeMesh.nodesGlobal` (lines 157-166) forwards to
the native `Mesh_GetGlobalSize`, which is not part of this module; per the
spec a Cartesian-regular generator places `resolution + 1` nodes along a
non-periodic axis and `resolution` nodes along a periodic (wrapping) axis. -/
def axisNodeCount (res : Nat) (periodic : Bool) : Nat :=
  if periodic then res else res + 1

/-- Modelled from the spec: the tensor-product grid of vertex multi-indices
over per-axis node counts, linearised in row-major order. -/
def gridVertices : List Nat → List (List Nat)
  | [] => [[]]
  | n :: rest => (List.range n).flatMap (fun i => (gridVertices rest).map (fun v => i :: v))

/-- Modelled from the spec: the global vertex count of a Cartesian mesh with
the given per-axis element resolution and periodicity flags — the number of
vertices the generator places. -/
def nodesGlobal (elementRes : List Nat) (periodic : List Bool) : Nat :=
  (gridVertices (List.zipWith axisNodeCount elementRes periodic)).length

/-! ### The special-set registry -/

/-- The special-set rules a Cartesian mesh registers (the values of the
`_specialSets_Cartesian` module referenced on lines 580-600). -/
inductive SpecialSetRule where
  | maxI
  | minI
  | maxJ
  | minJ
  | maxK
  | minK
  | allWalls
  | empty
deriving DecidableEq, Repr

/-- Embedding of the special-set registrations performed by
`FeMesh_Cartesian.__init__` (lines 579-600): the four I/J wall sets, the two
K wall sets when the mesh is 3D, then `AllWalls` and `Empty`.  The source's
removal of wall sets on periodic axes (lines 588-597) is commented out, so
the registered entries do not depend on the periodicity flags. -/
def cartesianInitSpecialSets (dim : Nat) (_periodic : List Bool) :
    List (String × SpecialSetRule) :=
  [("MaxI_VertexSet", SpecialSetRule.maxI),
   ("MinI_VertexSet", SpecialSetRule.minI),
   ("MaxJ_VertexSet", SpecialSetRule.maxJ),
   ("MinJ_VertexSet", SpecialSetRule.minJ)]
  ++ (if dim = 3 then
       [("MaxK_VertexSet", SpecialSetRule.maxK),
        ("MinK_VertexSet", SpecialSetRule.minK)]
      else [])
  ++ [("AllWalls", SpecialSetRule.allWalls),
      ("Empty", SpecialSetRule.empty)]

/-- Embedding of `FeMesh._SpecialSetsDict.__getitem__` (lines 193-197): look
the stored rule up in the underlying dictionary, call it on the bound mesh
(dereferenced through the weak reference at call time), and return the
result.  The mesh is abstracted by its current geometry state. -/
def specialSetsGetItem {MeshState : Type}
    (rules : String → Option (MeshState → FeMesh_IndexSet))
    (currentMesh : MeshState) (index : String) : Option FeMesh_IndexSet :=
  (rules index).map (fun item => item currentMesh)

/-! ### FeMesh_Cartesian: secondary (sub) mesh construction -/

/-- The generator built for the secondary mesh of a dual Cartesian mesh
(lines 564-575): an independent `LinearCartesianGenerator` carrying its own
Cartesian geometry, or one of the three templated generators keyed on the
primary mesh (`geometryMesh=self`). -/
inductive SecondaryGen where
  | linearCartesianGen (elementRes : List Nat)
  | dQ1Gen (geometryMesh : Nat)
  | linearInnerGen (geometryMesh : Nat)
  | constantGen (geometryMesh : Nat)
deriving DecidableEq, Repr

/-- The secondary mesh built by `FeMesh_Cartesian.__init__`: its element
type and its generator. -/
structure SecondaryMesh where
  elementType : List Char
  generator : SecondaryGen
deriving DecidableEq, Repr

/-- Embedding of the secondary-mesh construction of
`FeMesh_Cartesian.__init__` (lines 560-577): `_secondaryMesh` starts as
`None`; only when exactly two element types were requested is a secondary
mesh built, with the generator chosen by comparing the second type against
`_supportedElementTypes[1..4]` in order. -/
def femeshCartesianSecondary (primaryMeshId : Nat) (elementRes : List Nat)
    (elementType : List (List Char)) : Except UwError (Option SecondaryMesh) :=
  match elementType with
  | [_, t1] =>
    let u := upperChars t1
    if u = supportedElementTypes.getD 1 [] then
      .ok (some (SecondaryMesh.mk u (.linearCartesianGen elementRes)))
    else if u = supportedElementTypes.getD 2 [] then
      .ok (some (SecondaryMesh.mk u (.dQ1Gen primaryMeshId)))
    else if u = supportedElementTypes.getD 3 [] then
      .ok (some (SecondaryMesh.mk u (.linearInnerGen primaryMeshId)))
    else if u = supportedElementTypes.getD 4 [] then
      .ok (some (SecondaryMesh.mk u (.constantGen primaryMeshId)))
    else
      .error (.valueError "The secondary mesh must be of a supported secondary type.")
  | _ => .ok none

/-! ### Helper lemmas -/

/-- The tensor-product vertex list has exactly the product of the per-axis
node counts as its length. -/
theorem gridVertices_length (ns : List Nat) : (gridVertices ns).length = ns.prod := by
  induction ns with
  | nil => rfl
  | cons n rest ih =>
    have hconst : (List.length ∘ fun i => List.map (fun v => i :: v) (gridVertices rest))
        = fun _ => rest.prod := by
      funext i
      simp [ih]
    simp [gridVertices, List.length_flatMap, hconst, List.map_const',
      List.sum_replicate, smul_eq_mul, Nat.mul_comm]

/-- Per-axis node count, rewritten in the additive form of the spec. -/
theorem axisNodeCount_eq (res : Nat) (p : Bool) :
    axisNodeCount res p = res + if p then 0 else 1 := by
  cases p <;> simp [axisNodeCount]

/-- A successful `CartesianMeshGenerator.__init__` implies every validity
condition of its argument checks. -/
theorem cartesianInit_ok_conditions (eres : List PyRes) (minc maxc : List PyCoord)
    (per : List PyBool) (st : CartGenState)
    (h : cartesianMeshGeneratorInit (.seq eres) (.seq minc) (.seq maxc) (.seq per) = .ok st) :
    eres.any PyRes.isBad = false ∧ (eres.length = 2 ∨ eres.length = 3) ∧
      minc.length = eres.length ∧ maxc.length = eres.length ∧
      ∀ i < eres.length,
        (minc.getD i PyCoord.other).val < (maxc.getD i PyCoord.other).val := by
  unfold cartesianMeshGeneratorInit at h
  simp only [bind, Except.bind, pure, Except.pure, throw, throwThe, MonadExcept.throw] at h
  split_ifs at h with h1 h2 h3 h4 h5 h6 h7 h8 h9
  all_goals first
    | exact Except.noConfusion h
    | (refine ⟨by simpa using h1, h2, by omega, by omega, ?_⟩
       intro i hi
       rw [Bool.not_eq_true, List.any_eq_false] at h9
       have hx := h9 i (List.mem_range.mpr hi)
       simpa [not_le] using hx)

/-! ### Claim theorems -/

/-- C1: combining two Index Sets with union, intersection or difference
succeeds exactly when both their topological levels and their owning meshes
agree; any mismatch in either fails with a compatibility (type) error. -/
theorem c1_indexset_combine_compat (op : SetOp) (a b : FeMesh_IndexSet) :
    exceptOk (combine op a b) = true ↔
      (a.topologicalIndex = b.topologicalIndex ∧ a.meshId = b.meshId) := by
  by_cases h1 : a.topologicalIndex = b.topologicalIndex <;>
    by_cases h2 : a.meshId = b.meshId <;>
      simp [combine, checkCompatWith, parentCheckCompatWith, exceptOk, h1, h2,
        bind, Except.bind, pure, Except.pure, throw, throwThe, MonadExcept.throw]

/-- C2: for every Cartesian configuration the modelled global vertex count
equals the product over axes of resolution plus one for non-periodic axes
and resolution for periodic axes; in particular the 2x2 non-periodic mesh
has nine global vertices. -/
theorem c2_nodes_global_formula :
    (∀ (elementRes : List Nat) (periodic : List Bool),
        nodesGlobal elementRes periodic =
          (List.zipWith (fun res p => res + if p then 0 else 1) elementRes periodic).prod) ∧
      nodesGlobal [2, 2] [false, false] = 9 := by
  constructor
  · intro elementRes periodic
    have hfun : axisNodeCount = fun res p => res + if p then 0 else 1 := by
      funext res p
      exact axisNodeCount_eq res p
    rw [nodesGlobal, gridVertices_length, hfun]
  · decide

/-- C3: the claim says a periodicity-flags list whose length differs from
the resolution list makes construction fail; the source line 297 compares
the length of `periodic` with itself, so the check never fires and a 2x2
mesh with a single-entry periodic list is constructed without error. -/
theorem c3_periodic_length_mismatch_not_rejected :
    exceptOk (cartesianMeshGeneratorInit
      (.seq [PyRes.int 2, PyRes.int 2])
      (.seq [PyCoord.num 0, PyCoord.num 0])
      (.seq [PyCoord.num 1, PyCoord.num 1])
      (.seq [PyBool.bool false])) = true := by decide

/-- C4: a `CartesianMeshGenerator` construction whose `elementRes` contains
a non-positive or non-integer entry, or whose `elementRes` length is not 2
or 3, or whose `minCoord`/`maxCoord` length differs from the `elementRes`
length, or with `minCoord` at least `maxCoord` on some axis, fails at
construction time, producing no generator state. -/
theorem c4_invalid_cartesian_config_rejected (eres : List PyRes)
    (minc maxc : List PyCoord) (per : List PyBool)
    (hbad : eres.any PyRes.isBad = true
        ∨ ¬ (eres.length = 2 ∨ eres.length = 3)
        ∨ minc.length ≠ eres.length
        ∨ maxc.length ≠ eres.length
        ∨ ∃ i < eres.length,
            (maxc.getD i PyCoord.other).val ≤ (minc.getD i PyCoord.other).val) :
    exceptOk (cartesianMeshGeneratorInit (.seq eres) (.seq minc) (.seq maxc) (.seq per))
      = false := by
  cases hres : cartesianMeshGeneratorInit (.seq eres) (.seq minc) (.seq maxc) (.seq per) with
  | error e => rfl
  | ok st =>
    exfalso
    obtain ⟨g1, g2, g3, g4, g5⟩ := cartesianInit_ok_conditions eres minc maxc per st hres
    rcases hbad with hb | hb | hb | hb | hb
    · rw [g1] at hb
      exact Bool.false_ne_true hb
    · exact hb g2
    · exact hb g3
    · exact hb g4
    · obtain ⟨i, hi, hle⟩ := hb
      exact absurd (g5 i hi) (not_lt.mpr hle)

/-- C4 witness: elementRes containing 0 is rejected. -/
theorem c4_invalid_cartesian_config_rejected_witness :
    exceptOk (cartesianMeshGeneratorInit
      (.seq [PyRes.int 0, PyRes.int 2])
      (.seq [PyCoord.num 0, PyCoord.num 0])
      (.seq [PyCoord.num 1, PyCoord.num 1])
      (.seq [PyBool.bool false, PyBool.bool false])) = false :=
  c4_invalid_cartesian_config_rejected
    [PyRes.int 0, PyRes.int 2]
    [PyCoord.num 0, PyCoord.num 0]
    [PyCoord.num 1, PyCoord.num 1]
    [PyBool.bool false, PyBool.bool false]
    (Or.inl (by decide))

/-- C5: `FeMesh` construction fails with the unsupported-element-type error
when the element type is outside the fixed enumeration; fails with the
missing-generator error when no generator is supplied and the mesh is not
itself a `MeshGenerator`; and when the mesh is a `MeshGenerator` and no
generator is supplied, the mesh serves as its own generator (stored weakly,
returned by the generator property). -/
theorem c5_femesh_init_contract (s : List Char) (generator : Option PyObj)
    (selfObj : PyObj) :
    (upperChars s ∉ supportedElementTypes →
      femeshInit (.str s) generator selfObj =
        .error (.valueError "elementType provided does not appear to be supported.")) ∧
    (upperChars s ∈ supportedElementTypes →
      selfObj.isMeshGenerator = false →
      femeshInit (.str s) none selfObj =
        .error (.valueError "No generator provided for mesh. You must provide a generator, or the mesh itself must be of the MeshGenerator class.")) ∧
    (upperChars s ∈ supportedElementTypes →
      selfObj.isMeshGenerator = true →
      femeshInit (.str s) none selfObj =
        .ok (FeMeshState.mk (upperChars s) (.weakref selfObj)) ∧
      generatorGetter (GenStore.weakref selfObj) = selfObj) := by
  refine ⟨fun h1 => ?_, fun h1 h2 => ?_, fun h1 h2 => ⟨?_, rfl⟩⟩ <;>
    simp [femeshInit, generatorSetter, *, bind, Except.bind, pure, Except.pure,
      throw, throwThe, MonadExcept.throw]

/-- C5 witness: an unsupported type Q3 is rejected; a Q1 mesh that is not a
generator and got none is rejected; a Q1 mesh that is itself a generator
becomes its own generator. -/
theorem c5_femesh_init_contract_witness :
    femeshInit (.str "Q3".data) none (PyObj.mk 0 true) =
      .error (.valueError "elementType provided does not appear to be supported.") ∧
    femeshInit (.str "Q1".data) none (PyObj.mk 0 false) =
      .error (.valueError "No generator provided for mesh. You must provide a generator, or the mesh itself must be of the MeshGenerator class.") ∧
    (femeshInit (.str "Q1".data) none (PyObj.mk 0 true) =
      .ok (FeMeshState.mk (upperChars "Q1".data) (.weakref (PyObj.mk 0 true))) ∧
      generatorGetter (GenStore.weakref (PyObj.mk 0 true)) = PyObj.mk 0 true) :=
  ⟨(c5_femesh_init_contract "Q3".data none (PyObj.mk 0 true)).1 (by decide),
   (c5_femesh_init_contract "Q1".data none (PyObj.mk 0 false)).2.1 (by decide) rfl,
   (c5_femesh_init_contract "Q1".data none (PyObj.mk 0 true)).2.2 (by decide) rfl⟩

/-- C6 counterexample: the element-type string Q1X contains the unknown
token X, yet parsing drops the X silently and the construction validation
accepts the result as a plain Q1 mesh instead of rejecting the string. -/
theorem c6_unknown_token_accepted :
    strtolist "Q1X".data = ["Q1".data] ∧
    femeshCartesianNewStr "Q1X".data = .ok ["Q1".data] :=
  ⟨by decide, rfl⟩

/-- C6 (amended): element-type strings are scanned against the supported
enumeration in a fixed order, extracting and removing matched tokens while
ignoring unmatched characters rather than rejecting them; the construction
validation then accepts only parses with at most two tokens, every token in
the fixed enumeration, and the primary token among the first two. -/
theorem c6_elementtype_string_validation (s : List Char) (l : List (List Char))
    (h : femeshCartesianNewStr s = .ok l) :
    l = strtolist s ∧ l.length ≤ 2 ∧
      (∀ t ∈ l, upperChars t ∈ supportedElementTypes) ∧
      (∀ t0 ∈ l.head?, upperChars t0 ∈ supportedElementTypes.take 2) := by
  unfold femeshCartesianNewStr femeshCartesianNewValidate at h
  set etList := strtolist s with hdef
  clear_value etList
  simp only [bind, Except.bind, pure, Except.pure, throw, throwThe, MonadExcept.throw] at h
  split_ifs at h with h1 h2
  split at h
  · exact Except.noConfusion h
  · rename_i t0 rest
    split_ifs at h with h3
    split at h
    · rename_i t1
      split_ifs at h with h4
      · injection h with hl
        subst hl
        simp at h2
        refine ⟨rfl, by simp, ?_, ?_⟩
        · intro t ht
          simp at ht
          rcases ht with rfl | rfl
          · exact h2.1
          · exact h2.2
        · intro x hx
          simp at hx
          subst hx
          simpa using h3
    · rename_i hrest
      injection h with hl
      subst hl
      simp at h2
      refine ⟨rfl, by simp at h1 ⊢; omega, ?_, ?_⟩
      · intro t ht
        rcases List.mem_cons.mp ht with rfl | ht
        · exact h2.1
        · exact h2.2 t ht
      · intro x hx
        simp at hx
        subst hx
        simpa using h3

/-- C6 witness: the dual-type string Q1/DQ0 parses to the two tokens Q1 and
DQ0 and satisfies every validated property. -/
theorem c6_elementtype_string_validation_witness :
    ["Q1".data, "DQ0".data] = strtolist "Q1/DQ0".data ∧
      (["Q1".data, "DQ0".data] : List (List Char)).length ≤ 2 ∧
      (∀ t ∈ (["Q1".data, "DQ0".data] : List (List Char)),
        upperChars t ∈ supportedElementTypes) ∧
      (∀ t0 ∈ (["Q1".data, "DQ0".data] : List (List Char)).head?,
        upperChars t0 ∈ supportedElementTypes.take 2) :=
  c6_elementtype_string_validation "Q1/DQ0".data ["Q1".data, "DQ0".data] rfl

/-- C7: for every Cartesian mesh configuration, whatever the periodicity
flags, the per-axis boundary wall special sets stay registered after
construction: the I and J wall sets always, and the K wall sets whenever the
mesh is 3D.  The removal of wall sets on periodic axes is disabled in the
source, so registration is independent of the periodicity flags. -/
theorem c7_periodic_wall_sets_remain (dim : Nat) (periodic : List Bool) :
    ((cartesianInitSpecialSets dim periodic).lookup "MinI_VertexSet"
        = some SpecialSetRule.minI) ∧
    ((cartesianInitSpecialSets dim periodic).lookup "MaxI_VertexSet"
        = some SpecialSetRule.maxI) ∧
    ((cartesianInitSpecialSets dim periodic).lookup "MinJ_VertexSet"
        = some SpecialSetRule.minJ) ∧
    ((cartesianInitSpecialSets dim periodic).lookup "MaxJ_VertexSet"
        = some SpecialSetRule.maxJ) ∧
    (dim = 3 →
      ((cartesianInitSpecialSets dim periodic).lookup "MinK_VertexSet"
          = some SpecialSetRule.minK) ∧
      ((cartesianInitSpecialSets dim periodic).lookup "MaxK_VertexSet"
          = some SpecialSetRule.maxK)) := by
  by_cases h : dim = 3 <;>
    simp [cartesianInitSpecialSets, h, List.lookup]

/-- C7 witness: a fully periodic 3D mesh keeps all six wall sets. -/
theorem c7_periodic_wall_sets_remain_witness :
    ((cartesianInitSpecialSets 3 [true, true, true]).lookup "MinI_VertexSet"
        = some SpecialSetRule.minI) ∧
    ((cartesianInitSpecialSets 3 [true, true, true]).lookup "MinK_VertexSet"
        = some SpecialSetRule.minK) :=
  have hmain := c7_periodic_wall_sets_remain 3 [true, true, true]
  ⟨hmain.1, (hmain.2.2.2.2 rfl).1⟩

/-- C8: looking a registered name up in the special-sets dictionary invokes
the stored rule on the mesh as bound at lookup time, so two lookups made
while the mesh geometry is in two different states each reflect the state
current at that lookup. -/
theorem c8_special_sets_lookup_uses_current_mesh {MeshState : Type}
    (rules : String → Option (MeshState → FeMesh_IndexSet))
    (name : String) (rule : MeshState → FeMesh_IndexSet)
    (hreg : rules name = some rule) (m m' : MeshState) :
    specialSetsGetItem rules m name = some (rule m) ∧
    specialSetsGetItem rules m' name = some (rule m') := by
  simp [specialSetsGetItem, hreg]

/-- C8 witness: a rule returning the full vertex range of the current
geometry yields different sets when the geometry state changes between
lookups. -/
theorem c8_special_sets_lookup_uses_current_mesh_witness :
    specialSetsGetItem
        (fun n => if n = "AllWalls"
          then some (fun k : Nat => FeMesh_IndexSet.mk 0 0 (List.range k)) else none)
        2 "AllWalls" = some (FeMesh_IndexSet.mk 0 0 (List.range 2)) ∧
    specialSetsGetItem
        (fun n => if n = "AllWalls"
          then some (fun k : Nat => FeMesh_IndexSet.mk 0 0 (List.range k)) else none)
        3 "AllWalls" = some (FeMesh_IndexSet.mk 0 0 (List.range 3)) :=
  c8_special_sets_lookup_uses_current_mesh
    (fun n => if n = "AllWalls"
      then some (fun k : Nat => FeMesh_IndexSet.mk 0 0 (List.range k)) else none)
    "AllWalls" (fun k : Nat => FeMesh_IndexSet.mk 0 0 (List.range k))
    (by simp) 2 3

/-- C9: with a single requested element type the secondary mesh is `None`;
with two requested types the secondary mesh carries the second type and is
generated by an independent Cartesian generator when that type is Q1, and by
a templated generator keyed on the primary mesh when it is DQ1, DPC1 or
DQ0. -/
theorem c9_submesh_construction (primaryMeshId : Nat) (elementRes : List Nat)
    (t0 t1 : List Char) :
    femeshCartesianSecondary primaryMeshId elementRes [t0] = .ok none ∧
    (upperChars t1 = "Q1".data →
      femeshCartesianSecondary primaryMeshId elementRes [t0, t1] =
        .ok (some (SecondaryMesh.mk "Q1".data (.linearCartesianGen elementRes)))) ∧
    (upperChars t1 = "DQ1".data →
      femeshCartesianSecondary primaryMeshId elementRes [t0, t1] =
        .ok (some (SecondaryMesh.mk "DQ1".data (.dQ1Gen primaryMeshId)))) ∧
    (upperChars t1 = "DPC1".data →
      femeshCartesianSecondary primaryMeshId elementRes [t0, t1] =
        .ok (some (SecondaryMesh.mk "DPC1".data (.linearInnerGen primaryMeshId)))) ∧
    (upperChars t1 = "DQ0".data →
      femeshCartesianSecondary primaryMeshId elementRes [t0, t1] =
        .ok (some (SecondaryMesh.mk "DQ0".data (.constantGen primaryMeshId)))) := by
  refine ⟨rfl, fun h => ?_, fun h => ?_, fun h => ?_, fun h => ?_⟩ <;>
    simp [femeshCartesianSecondary, supportedElementTypes, h]

/-- C9 witness: a lone Q1 type yields no submesh, and the Q1/DQ0 pair
yields a DQ0 submesh templated on the primary mesh. -/
theorem c9_submesh_construction_witness :
    femeshCartesianSecondary 7 [4, 4] ["Q1".data] = .ok none ∧
    femeshCartesianSecondary 7 [4, 4] ["Q1".data, "DQ0".data] =
      .ok (some (SecondaryMesh.mk "DQ0".data (.constantGen 7))) :=
  have hmain := c9_submesh_construction 7 [4, 4] "Q1".data "DQ0".data
  ⟨hmain.1, hmain.2.2.2.2 (by decide)⟩

/-- C10: assigning a non-`MeshGenerator` object through the generator
setter raises a type error; assigning the mesh itself stores only a weak
reference yet the getter still returns the mesh; assigning any other
`MeshGenerator` stores it directly and the getter returns exactly it. -/
theorem c10_generator_roundtrip (m g : PyObj) :
    (g.isMeshGenerator = false →
      generatorSetter m g =
        .error (.typeError "generator object passed in must be of type MeshGenerator")) ∧
    (g.isMeshGenerator = true → g = m →
      generatorSetter m g = .ok (.weakref m) ∧
      generatorGetter (GenStore.weakref m) = m) ∧
    (g.isMeshGenerator = true → g ≠ m →
      generatorSetter m g = .ok (.strong g) ∧
      generatorGetter (GenStore.strong g) = g) := by
  refine ⟨fun h1 => ?_, fun h1 h2 => ⟨?_, rfl⟩, fun h1 h2 => ⟨?_, rfl⟩⟩
  · simp [generatorSetter, h1]
  · subst h2
    simp [generatorSetter, h1]
  · simp [generatorSetter, h1, Ne.symm h2]

/-- C10 witness: a non-generator is rejected; self-assignment stores a weak
reference that still dereferences to the mesh; a distinct generator
round-trips unchanged. -/
theorem c10_generator_roundtrip_witness :
    generatorSetter (PyObj.mk 0 true) (PyObj.mk 1 false) =
      .error (.typeError "generator object passed in must be of type MeshGenerator") ∧
    (generatorSetter (PyObj.mk 0 true) (PyObj.mk 0 true) =
        .ok (.weakref (PyObj.mk 0 true)) ∧
      generatorGetter (GenStore.weakref (PyObj.mk 0 true)) = PyObj.mk 0 true) ∧
    (generatorSetter (PyObj.mk 0 true) (PyObj.mk 2 true) =
        .ok (.strong (PyObj.mk 2 true)) ∧
      generatorGetter (GenStore.strong (PyObj.mk 2 true)) = PyObj.mk 2 true) :=
  ⟨(c10_generator_roundtrip (PyObj.mk 0 true) (PyObj.mk 1 false)).1 rfl,
   (c10_generator_roundtrip (PyObj.mk 0 true) (PyObj.mk 0 true)).2.1 rfl rfl,
   (c10_generator_roundtrip (PyObj.mk 0 true) (PyObj.mk 2 true)).2.2 rfl (by decide)⟩

end Underworld
